import Mathlib

/-!
Verification of the thera-pipeline matching and training core.

This file gives a shallow embedding of the algorithmic core of the
repository and proves the specified properties about it:

* `lambda-matcher.py` (`EmbeddingsMatcher`): cosine similarity, rule
  features (industry/geo/name), the logistic-regression scorer
  `calculate_ml_score`, the final score combination, and `find_matches`.
* `matcher-scoring-snippet.py` (`MatcherScoring`): `compute_final_score`
  with its clamp to [0,1].
* `lambda-ml-training/lambda_function.py` (`MLTrainer`): `prepare_features`
  (fixed numeric features plus dynamic one-hot vocabularies),
  `train_model`, `compare_models` and the promotion decision in
  `lambda_handler`.
* `lambda-weekly-trainer.py` (`WeeklyTrainer`): same feature preparation,
  with an unconditional `save_model` in its `lambda_handler`.

Python floats are embedded as real numbers (rationals where the code only
does field arithmetic on parsed values); external collaborators
(scikit-learn's `LogisticRegression.fit`, `train_test_split`, Athena, S3)
are inputs or function parameters of the embedded pipeline steps.
-/

/-! ## String helpers: Python `str.lower`, substring `in`, `str.split()` -/

/-- Python `str.lower` for the ASCII strings this pipeline manipulates. -/
def lowerStr (s : String) : String := String.mk (s.toList.map Char.toLower)

/-- Python substring test `needle in hay`, on character lists. -/
def infixOfL (needle : List Char) : List Char → Bool
  | [] => needle.isEmpty
  | c :: t => needle.isPrefixOf (c :: t) || infixOfL needle t

/-- Python `needle in hay` for strings (substring containment). -/
def strContains (hay needle : String) : Bool := infixOfL needle.toList hay.toList

/-- Python `str.split()`: split on whitespace, dropping empty pieces. -/
def pySplit (s : String) : List String :=
  (s.split Char.isWhitespace).filter (fun w => w ≠ "")

/-! ## Keyword taxonomies (`_extract_industry_from_text`, `_extract_country_from_text`)

The dictionaries of `lambda-matcher.py` preserve insertion order, so they
are embedded as ordered association lists. -/

/-- The `industry_keywords` dict of `_extract_industry_from_text`. -/
def industryKeywords : List (String × List String) :=
  [("technology", ["tech", "software", "ai", "artificial intelligence", "machine learning", "data", "cloud", "saas"]),
   ("healthcare", ["health", "medical", "pharma", "biotech", "healthcare", "medicine"]),
   ("finance", ["fintech", "finance", "banking", "payments", "crypto", "blockchain"]),
   ("ecommerce", ["ecommerce", "retail", "marketplace", "shopping", "online store"]),
   ("education", ["education", "edtech", "learning", "school", "university"]),
   ("energy", ["energy", "renewable", "solar", "wind", "clean energy"]),
   ("transportation", ["transport", "mobility", "logistics", "delivery", "autonomous"]),
   ("real_estate", ["real estate", "property", "housing", "construction"])]

/-- The `country_keywords` dict of `_extract_country_from_text`. -/
def countryKeywords : List (String × List String) :=
  [("united states", ["usa", "us", "united states", "america"]),
   ("canada", ["canada", "canadian"]),
   ("united kingdom", ["uk", "britain", "england", "united kingdom"]),
   ("germany", ["germany", "german"]),
   ("france", ["france", "french"]),
   ("australia", ["australia", "australian"]),
   ("singapore", ["singapore", "singaporean"]),
   ("india", ["india", "indian"]),
   ("china", ["china", "chinese"]),
   ("japan", ["japan", "japanese"])]

/-- The `for industry, keywords in ...: if any(keyword in text_lower ...)`
loop: first taxonomy entry with a keyword occurring in the (lowered) text
wins; otherwise the empty string. -/
def firstMatchLabel (taxonomy : List (String × List String)) (textLower : String) : String :=
  match taxonomy with
  | [] => ""
  | (label, kws) :: rest =>
    if kws.any (fun k => strContains textLower k) then label
    else firstMatchLabel rest textLower

/-- `EmbeddingsMatcher._extract_industry_from_text`. -/
def extractIndustryFromText (text : String) : String :=
  firstMatchLabel industryKeywords (lowerStr text)

/-- `EmbeddingsMatcher._extract_country_from_text`. -/
def extractCountryFromText (text : String) : String :=
  firstMatchLabel countryKeywords (lowerStr text)

/-- `EmbeddingsMatcher._extract_company_name_from_text`: up to 3
capitalized words of length > 2, joined and lowered. -/
def extractCompanyNameFromText (text : String) : String :=
  let words := pySplit text
  let capitalized := words.filter (fun w => w.front.isUpper && 2 < w.length)
  lowerStr (" ".intercalate (capitalized.take 3))

/-- The `industry_match` feature of `calculate_rule_features`: 1.0 when
the resolved industry label is nonempty and a substring of the lowered
candidate industry, else 0.0. -/
def industryMatch (challengeText candidateIndustry : String) : ℚ :=
  let challengeIndustry := extractIndustryFromText challengeText
  if challengeIndustry ≠ "" ∧ strContains (lowerStr candidateIndustry) challengeIndustry then 1 else 0

/-- The `geo_match` feature of `calculate_rule_features`. -/
def geoMatch (challengeText candidateCountry : String) : ℚ :=
  let challengeCountry := extractCountryFromText challengeText
  if challengeCountry ≠ "" ∧ strContains (lowerStr candidateCountry) challengeCountry then 1 else 0

/-- The `name_similarity` feature of `calculate_rule_features`: Jaccard
similarity of word sets of the extracted company-name proxy and the
lowered candidate name. -/
def nameSimilarity (challengeText companyName : String) : ℚ :=
  let challengeName := extractCompanyNameFromText challengeText
  let candidateName := lowerStr companyName
  if challengeName ≠ "" ∧ candidateName ≠ "" then
    let challengeWords := (pySplit challengeName).toFinset
    let candidateWords := (pySplit candidateName).toFinset
    if challengeWords = ∅ ∨ candidateWords = ∅ then 0
    else if challengeWords ∪ candidateWords = ∅ then 0
    else ((challengeWords ∩ candidateWords).card : ℚ) / ((challengeWords ∪ candidateWords).card : ℚ)
  else 0

/-- The per-pair rule features dict of `calculate_rule_features`. -/
structure RuleFeatures where
  industry_match : ℚ
  geo_match : ℚ
  name_similarity : ℚ
deriving DecidableEq

/-- A candidate row as read from the embeddings table (rows without
`company_key` or with empty/malformed `embedding_vector` are already
filtered out by `get_candidates_from_athena`). -/
structure Candidate where
  company_key : String
  company_name : String
  industry : String
  country : String
  embedding_vector : List ℝ

/-- `EmbeddingsMatcher.calculate_rule_features` on one candidate. -/
def calculateRuleFeatures (challengeText : String) (c : Candidate) : RuleFeatures :=
  { industry_match := industryMatch challengeText c.industry
    geo_match := geoMatch challengeText c.country
    name_similarity := nameSimilarity challengeText c.company_name }

/-! ## Cosine similarity and the logistic scorer (`lambda-matcher.py`) -/

/-- Dot product of two float vectors (truncating like `zip`). -/
noncomputable def dotl (a b : List ℝ) : ℝ := (List.zipWith (fun x y => x * y) a b).sum

/-- `EmbeddingsMatcher.calculate_cosine_similarity`: 0.0 for an empty
input; 0.0 when the library call fails on a dimension mismatch; otherwise
the normalized dot product (a zero-magnitude vector yields 0.0, the
guarded NaN of the source). -/
noncomputable def cosineSim (a b : List ℝ) : ℝ :=
  if a.isEmpty || b.isEmpty then 0
  else if a.length = b.length then dotl a b / (Real.sqrt (dotl a a) * Real.sqrt (dotl b b))
  else 0

/-- The logistic function `1 / (1 + math.exp(-score))`. -/
noncomputable def sigmoid (x : ℝ) : ℝ := 1 / (1 + Real.exp (-x))

/-- The ML model JSON consumed by `calculate_ml_score`. -/
structure MatcherModel where
  coefficients : List ℝ
  intercept : ℝ
  feature_order : List String

/-- The hardcoded fallback model returned by `load_ml_model` when the
artifact cannot be loaded. -/
noncomputable def defaultModel : MatcherModel :=
  { coefficients := [0.5, 0.3, 0.2]
    intercept := 0.0
    feature_order := ["embedding_similarity", "industry_match", "geo_match"] }

/-- The `for feature_name in model['feature_order']` loop of
`calculate_ml_score`: values in feature-order, 0.0 for absent names. -/
noncomputable def buildFeatureValues (order : List String) (features : List (String × ℝ)) : List ℝ :=
  match order with
  | [] => []
  | n :: rest =>
    (match features.lookup n with
     | some v => v
     | none => 0) :: buildFeatureValues rest features

/-- `EmbeddingsMatcher.calculate_ml_score`: sigmoid of the dot product of
the coefficients with the ordered feature values, plus the intercept. -/
noncomputable def calculateMlScore (model : MatcherModel) (features : List (String × ℝ)) : ℝ :=
  let featureValues := buildFeatureValues model.feature_order features
  sigmoid ((List.zipWith (fun c v => c * v) model.coefficients featureValues).sum + model.intercept)

/-- The final-score combination of `find_matches` (line 348):
`(0.7 * embedding_sim) + (0.3 * ml_score)`, with no clamp. -/
noncomputable def matcherFinalScore (embeddingSim mlScore : ℝ) : ℝ :=
  0.7 * embeddingSim + 0.3 * mlScore

/-- `EmbeddingsMatcher._generate_reason`. -/
noncomputable def generateReason (embeddingSim : ℝ) (rf : RuleFeatures) (mlScore : ℝ) : String :=
  let reasons : List String :=
    (if (0.8 : ℝ) < embeddingSim then ["Very high content similarity"]
     else if (0.6 : ℝ) < embeddingSim then ["High content similarity"]
     else if (0.4 : ℝ) < embeddingSim then ["Moderate content similarity"]
     else []) ++
    (if 0 < rf.industry_match then ["Industry match"] else []) ++
    (if 0 < rf.geo_match then ["Geographic match"] else []) ++
    (if (1 / 2 : ℚ) < rf.name_similarity then ["Company name similarity"] else []) ++
    (if (0.7 : ℝ) < mlScore then ["Strong ML prediction"]
     else if (0.5 : ℝ) < mlScore then ["Moderate ML prediction"]
     else [])
  if reasons = [] then "General similarity" else "; ".intercalate reasons

/-- One entry of the result list built by `find_matches`. -/
structure MatchResult where
  company_key : String
  company_name : String
  industry : String
  country : String
  embedding_similarity : ℝ
  ml_score : ℝ
  final_score : ℝ
  rule_features : RuleFeatures
  reason : String

/-- `TOP_RESULTS` environment default. -/
def TOP_RESULTS : ℕ := 20

/-- The per-candidate body of the `for candidate in candidates` loop of
`find_matches`: cosine similarity, rule features, ML score over the three
features passed at the call site, final score and reason. -/
noncomputable def scoreCandidate (challengeText : String) (challengeEmbedding : List ℝ)
    (model : MatcherModel) (c : Candidate) : MatchResult :=
  let embeddingSim := cosineSim challengeEmbedding c.embedding_vector
  let rf := calculateRuleFeatures challengeText c
  let mlScore := calculateMlScore model
    [("embedding_similarity", embeddingSim),
     ("industry_match", (rf.industry_match : ℝ)),
     ("geo_match", (rf.geo_match : ℝ))]
  { company_key := c.company_key
    company_name := c.company_name
    industry := c.industry
    country := c.country
    embedding_similarity := embeddingSim
    ml_score := mlScore
    final_score := matcherFinalScore embeddingSim mlScore
    rule_features := rf
    reason := generateReason embeddingSim rf mlScore }

/-- `EmbeddingsMatcher.find_matches`, with the challenge embedding and the
candidate query results supplied as inputs (they come from external
services). An empty candidate set short-circuits to `[]`; otherwise the
scored results are sorted descending by `final_score` (a stable sort, like
`list.sort(reverse=True)`) and truncated to `TOP_RESULTS`. -/
noncomputable def findMatches (challengeText : String) (challengeEmbedding : List ℝ)
    (candidates : List Candidate) (model : MatcherModel) : List MatchResult :=
  if candidates.isEmpty then []
  else
    let results := candidates.map (scoreCandidate challengeText challengeEmbedding model)
    (results.mergeSort (fun a b => decide (b.final_score ≤ a.final_score))).take TOP_RESULTS

/-! ## `matcher-scoring-snippet.py` (`MatcherScoring.compute_final_score`) -/

/-- `MatcherScoring.compute_final_score`: the 0.6/0.2/0.1/0.1 weighted
combination, clamped by `max(0.0, min(1.0, final_score))`. -/
noncomputable def computeFinalScore (embeddingSimilarity industryGeoScore apolloScore mlScore : ℝ) : ℝ :=
  max 0.0 (min 1.0
    (0.6 * embeddingSimilarity + 0.2 * industryGeoScore + 0.1 * apolloScore + 0.1 * mlScore))

/-! ## Training pipeline (`lambda-ml-training/lambda_function.py`, `lambda-weekly-trainer.py`) -/

/-- The parsed `rule_features` JSON of one historical shortlist row
(a dict that may lack any of the three keys). -/
structure TrainRuleFeatures where
  industry_match : Option ℚ
  geo_match : Option ℚ
  name_similarity : Option ℚ
deriving DecidableEq

/-- One row of the mined training set (shortlists joined with company
profiles); optional fields are the ones `prepare_features` defaults with
`.get(..., 0.0)` / `fillna`. -/
structure TrainingRow where
  embedding_similarity : ℚ
  ml_score : ℚ
  rule_features : Option TrainRuleFeatures
  employee_count : Option ℚ
  annual_revenue : Option ℚ
  total_funding : Option ℚ
  domain_health_score : Option ℚ
  content_richness_score : Option ℚ
  industry : Option String
  country : Option String
  contacted_within_14_days : ℚ
deriving DecidableEq

/-- `rule_features.get(key, 0.0) if isinstance(rule_features, dict) else 0.0`. -/
def ruleFeatureValue (rf : Option TrainRuleFeatures) (get : TrainRuleFeatures → Option ℚ) : ℚ :=
  match rf with
  | some d => (get d).getD 0
  | none => 0

/-- The ten fixed feature names appended by `prepare_features` before the
one-hot encodings, in the order the source appends them. -/
def fixedFeatureNames : List String :=
  ["embedding_similarity", "ml_score", "industry_match", "geo_match", "name_similarity",
   "employee_count", "annual_revenue", "total_funding", "domain_health_score",
   "content_richness_score"]

/-- The ten fixed feature values of one row, in the same order. -/
def fixedFeatureVector (r : TrainingRow) : List ℚ :=
  [r.embedding_similarity, r.ml_score,
   ruleFeatureValue r.rule_features TrainRuleFeatures.industry_match,
   ruleFeatureValue r.rule_features TrainRuleFeatures.geo_match,
   ruleFeatureValue r.rule_features TrainRuleFeatures.name_similarity,
   r.employee_count.getD 0, r.annual_revenue.getD 0, r.total_funding.getD 0,
   r.domain_health_score.getD 0, r.content_richness_score.getD 0]

/-- Helper for `pandas.Series.unique`: values in order of first
occurrence, given the values already seen. -/
def uniqueInOrderAux (seen : List String) : List String → List String
  | [] => []
  | a :: t => if a ∈ seen then uniqueInOrderAux seen t else a :: uniqueInOrderAux (a :: seen) t

/-- `pandas.Series.unique`: distinct values in order of first occurrence. -/
def uniqueInOrder (l : List String) : List String := uniqueInOrderAux [] l

/-- `df['industry'].fillna('unknown')` for one row. -/
def rowIndustry (r : TrainingRow) : String := r.industry.getD "unknown"

/-- `df['country'].fillna('unknown')` for one row. -/
def rowCountry (r : TrainingRow) : String := r.country.getD "unknown"

/-- `MLTrainer.prepare_features` (identical in `WeeklyTrainer`): the ten
fixed numeric columns followed by one-hot encodings of the industry and
country values observed in this run.  The source stacks columns with
`np.column_stack`; the embedding returns the equivalent row-major matrix,
the labels `y`, and `feature_names`. -/
def prepareFeatures (df : List TrainingRow) :
    List (List ℚ) × List ℚ × List String :=
  let industries := uniqueInOrder (df.map rowIndustry)
  let countries := uniqueInOrder (df.map rowCountry)
  let featureNames := fixedFeatureNames
    ++ industries.map (fun v => "industry_" ++ v)
    ++ countries.map (fun v => "country_" ++ v)
  let X := df.map (fun r =>
    fixedFeatureVector r
      ++ industries.map (fun v => if rowIndustry r = v then (1 : ℚ) else 0)
      ++ countries.map (fun v => if rowCountry r = v then (1 : ℚ) else 0))
  (X, df.map (fun r => r.contacted_within_14_days), featureNames)

/-- What the external scikit-learn fit-and-evaluate step returns:
`model.coef_[0]`, `model.intercept_[0]`, and the test-set metrics. -/
structure FitResult where
  coef : List ℚ
  intercept : ℚ
  auc : ℚ
  accuracy : ℚ
  prAuc : ℚ
deriving DecidableEq

/-- The external `train_test_split(X, y, test_size=0.2, random_state=42,
stratify=y)`, as a function on the zipped samples. -/
abbrev SplitFn := List (List ℚ × ℚ) → List (List ℚ × ℚ) × List (List ℚ × ℚ)

/-- The external `LogisticRegression(...).fit` plus test-set evaluation,
taking the train matrix, train labels, test matrix and test labels. -/
abbrev FitFn := List (List ℚ) → List ℚ → List (List ℚ) → List ℚ → FitResult

/-- The `model_data` JSON built by `train_model` (both trainers; the
weekly trainer records `pr_auc_score` and no `accuracy`). -/
structure ModelData where
  model_type : String
  coefficients : List ℚ
  intercept : ℚ
  feature_order : List String
  training_samples : ℕ
  test_samples : ℕ
  auc_score : Option ℚ
  accuracy : Option ℚ
  pr_auc_score : Option ℚ
deriving DecidableEq

/-- `MLTrainer.train_model`: split, fit, evaluate, and assemble the model
JSON with `feature_order := feature_names`. -/
def trainModel (split : SplitFn) (fitEval : FitFn)
    (X : List (List ℚ)) (y : List ℚ) (featureNames : List String) : ModelData :=
  let pairs := X.zip y
  let trainPart := (split pairs).1
  let testPart := (split pairs).2
  let out := fitEval (trainPart.map Prod.fst) (trainPart.map Prod.snd)
    (testPart.map Prod.fst) (testPart.map Prod.snd)
  { model_type := "logistic_regression"
    coefficients := out.coef
    intercept := out.intercept
    feature_order := featureNames
    training_samples := trainPart.length
    test_samples := testPart.length
    auc_score := some out.auc
    accuracy := some out.accuracy
    pr_auc_score := none }

/-- `WeeklyTrainer.train_model`: identical fit, but the model JSON records
`pr_auc_score` and has no `accuracy` key. -/
def weeklyTrainModel (split : SplitFn) (fitEval : FitFn)
    (X : List (List ℚ)) (y : List ℚ) (featureNames : List String) : ModelData :=
  let pairs := X.zip y
  let trainPart := (split pairs).1
  let testPart := (split pairs).2
  let out := fitEval (trainPart.map Prod.fst) (trainPart.map Prod.snd)
    (testPart.map Prod.fst) (testPart.map Prod.snd)
  { model_type := "logistic_regression"
    coefficients := out.coef
    intercept := out.intercept
    feature_order := featureNames
    training_samples := trainPart.length
    test_samples := testPart.length
    auc_score := some out.auc
    accuracy := none
    pr_auc_score := some out.prAuc }

/-- The comparison dict returned by `MLTrainer.compare_models`. -/
structure Comparison where
  improvement : Bool
  auc_improvement : ℚ
  accuracy_improvement : ℚ
  reason : String
deriving DecidableEq

/-- `MLTrainer.compare_models`: no previous model always improves; a
missing `auc_score` / `accuracy` key on the new model raises inside the
`try`, and the `except` branch returns `improvement=True`; otherwise
improvement holds iff AUC or accuracy improved by more than 0.01
(the old model's values default to 0.0 via `.get`). -/
def compareModels (newModel : ModelData) (oldModel : Option ModelData) : Comparison :=
  match oldModel with
  | none =>
    { improvement := true, auc_improvement := 0, accuracy_improvement := 0
      reason := "No previous model to compare" }
  | some old =>
    match newModel.auc_score, newModel.accuracy with
    | some newAuc, some newAccuracy =>
      let aucImprovement := newAuc - old.auc_score.getD 0
      let accuracyImprovement := newAccuracy - old.accuracy.getD 0
      if 1 / 100 < aucImprovement ∨ 1 / 100 < accuracyImprovement then
        { improvement := true, auc_improvement := aucImprovement
          accuracy_improvement := accuracyImprovement, reason := "Model improved" }
      else
        { improvement := false, auc_improvement := aucImprovement
          accuracy_improvement := accuracyImprovement
          reason := "Model did not improve significantly" }
    | _, _ =>
      { improvement := true, auc_improvement := 0, accuracy_improvement := 0
        reason := "Error comparing models" }

/-- The `if comparison['improvement'] or not old_model` guard of the
ml-training `lambda_handler`. -/
def promotionDecision (newModel : ModelData) (deployed : Option ModelData) : Bool :=
  (compareModels newModel deployed).improvement || deployed.isNone

/-- The observable part of a training `lambda_handler` response body. -/
structure HandlerResponse where
  statusCode : ℕ
  message : String
  model_saved : Bool
deriving DecidableEq

/-- The ml-training `lambda_handler` as a transition on the deployed
artifact: fewer than 100 mined rows is a 200 no-op with
`model_saved=false`; otherwise train, compare against the currently
deployed model, and overwrite it only on the promotion decision. -/
def mlTrainingHandler (split : SplitFn) (fitEval : FitFn)
    (df : List TrainingRow) (deployed : Option ModelData) :
    HandlerResponse × Option ModelData :=
  if df.length < 100 then
    ({ statusCode := 200
       message := "Insufficient training data: " ++ toString df.length ++ " samples"
       model_saved := false }, deployed)
  else
    let p := prepareFeatures df
    let modelData := trainModel split fitEval p.1 p.2.1 p.2.2
    if (compareModels modelData deployed).improvement || deployed.isNone then
      ({ statusCode := 200, message := "ML training completed successfully"
         model_saved := true }, some modelData)
    else
      ({ statusCode := 200, message := "ML training completed successfully"
         model_saved := false }, deployed)

/-- The weekly-trainer `lambda_handler`: same under-100 no-op, but when it
trains it calls `save_model` unconditionally — no comparison guards the
overwrite of the deployed artifact (`model_saved := true` records that
`save_model` ran; the weekly response body has no such flag). -/
def weeklyHandler (split : SplitFn) (fitEval : FitFn)
    (df : List TrainingRow) (deployed : Option ModelData) :
    HandlerResponse × Option ModelData :=
  if df.length < 100 then
    ({ statusCode := 200
       message := "Insufficient training data: " ++ toString df.length ++ " samples"
       model_saved := false }, deployed)
  else
    let p := prepareFeatures df
    let modelData := weeklyTrainModel split fitEval p.1 p.2.1 p.2.2
    ({ statusCode := 200, message := "Weekly ML training completed successfully"
       model_saved := true }, some modelData)

/-! ## Concrete instances of the external collaborators and sample data -/

/-- A concrete admissible split: everything into the train part. -/
def splitAll : SplitFn := fun l => (l, [])

/-- A concrete admissible fit: zero coefficients (one per column of the
train matrix) and fixed metrics. -/
def fitHead (auc accuracy prAuc : ℚ) : FitFn :=
  fun Xtr _ _ _ => { coef := List.replicate (Xtr.headD []).length 0, intercept := 0
                     auc := auc, accuracy := accuracy, prAuc := prAuc }

/-- A minimal mined training row. -/
def row0 : TrainingRow :=
  { embedding_similarity := 0, ml_score := 0, rule_features := none
    employee_count := none, annual_revenue := none, total_funding := none
    domain_health_score := none, content_richness_score := none
    industry := none, country := none, contacted_within_14_days := 0 }

/-- A mined dataset of exactly 100 rows (enough to train). -/
def df100 : List TrainingRow := List.replicate 100 row0

/-- A mined dataset of 50 rows (insufficient). -/
def df50 : List TrainingRow := List.replicate 50 row0

/-- A deployed model with AUC 0.80 and accuracy 0.70. -/
def oldModelBase : ModelData :=
  { model_type := "logistic_regression", coefficients := [0], intercept := 0
    feature_order := ["embedding_similarity"], training_samples := 80, test_samples := 20
    auc_score := some (80 / 100), accuracy := some (70 / 100), pr_auc_score := none }

/-- A new model whose AUC beats `oldModelBase` by 0.02 at equal accuracy. -/
def newPlus2 : ModelData :=
  { model_type := "logistic_regression", coefficients := [0], intercept := 0
    feature_order := ["embedding_similarity"], training_samples := 80, test_samples := 20
    auc_score := some (82 / 100), accuracy := some (70 / 100), pr_auc_score := none }

/-- A new model whose AUC is 0.01 below `oldModelBase` at equal accuracy. -/
def newMinus1 : ModelData :=
  { model_type := "logistic_regression", coefficients := [0], intercept := 0
    feature_order := ["embedding_similarity"], training_samples := 80, test_samples := 20
    auc_score := some (79 / 100), accuracy := some (70 / 100), pr_auc_score := none }

/-- A new model whose metrics dict lacks the `auc_score` key. -/
def newNoAuc : ModelData :=
  { model_type := "logistic_regression", coefficients := [0], intercept := 0
    feature_order := ["embedding_similarity"], training_samples := 80, test_samples := 20
    auc_score := none, accuracy := some (70 / 100), pr_auc_score := none }

/-- The fixed model artifact of the spec's `ml_score` example. -/
noncomputable def exampleModel : MatcherModel :=
  { coefficients := [1.0, -0.5], intercept := 0.1
    feature_order := ["embedding_similarity", "industry_match"] }

/-- The feature dict of the spec's `ml_score` example. -/
noncomputable def exampleFeatures : List (String × ℝ) :=
  [("embedding_similarity", 0.8), ("industry_match", 1.0)]

/-- A candidate whose embedding points opposite to the challenge
embedding `[1]`. -/
noncomputable def oppositeCandidate : Candidate :=
  { company_key := "c1", company_name := "", industry := "", country := ""
    embedding_vector := [-1] }

/-- Fallback element for reading off the head of a result list. -/
noncomputable def emptyMatchResult : MatchResult :=
  { company_key := "", company_name := "", industry := "", country := ""
    embedding_similarity := 0, ml_score := 0, final_score := 0
    rule_features := { industry_match := 0, geo_match := 0, name_similarity := 0 }
    reason := "" }

/-! ## Helper lemmas -/

/-- The logistic function is positive. -/
theorem sigmoid_pos (x : ℝ) : 0 < sigmoid x := by
  unfold sigmoid
  positivity

/-- The logistic function is below 1. -/
theorem sigmoid_lt_one (x : ℝ) : sigmoid x < 1 := by
  unfold sigmoid
  rw [div_lt_one (by positivity)]
  linarith [Real.exp_pos (-x)]

/-- `calculate_ml_score` always returns a value below 1. -/
theorem calculateMlScore_lt_one (model : MatcherModel) (features : List (String × ℝ)) :
    calculateMlScore model features < 1 := by
  unfold calculateMlScore
  exact sigmoid_lt_one _

/-- `calculate_ml_score` always returns a positive value. -/
theorem calculateMlScore_pos (model : MatcherModel) (features : List (String × ℝ)) :
    0 < calculateMlScore model features := by
  unfold calculateMlScore
  exact sigmoid_pos _

theorem dotl_nil_left (b : List ℝ) : dotl [] b = 0 := rfl

theorem dotl_nil_right (a : List ℝ) : dotl a [] = 0 := by
  simp [dotl]

theorem dotl_cons (x y : ℝ) (xs ys : List ℝ) :
    dotl (x :: xs) (y :: ys) = x * y + dotl xs ys := by
  simp [dotl]

/-- A vector's dot product with itself is nonnegative. -/
theorem dotl_self_nonneg (a : List ℝ) : 0 ≤ dotl a a := by
  induction a with
  | nil => simp [dotl]
  | cons x xs ih =>
    rw [dotl_cons]
    nlinarith [sq_nonneg x]

/-- A vector with a nonzero entry has positive dot product with itself. -/
theorem dotl_self_pos (a : List ℝ) (h : ∃ x ∈ a, x ≠ 0) : 0 < dotl a a := by
  induction a with
  | nil => simp at h
  | cons x xs ih =>
    rw [dotl_cons]
    rcases h with ⟨z, hz, hz0⟩
    rcases List.mem_cons.mp hz with rfl | hzt
    · nlinarith [dotl_self_nonneg xs, sq_pos_of_ne_zero hz0]
    · nlinarith [ih ⟨z, hzt, hz0⟩, sq_nonneg x]

/-- The all-zero vector annihilates the dot product. -/
theorem dotl_zero_left (a b : List ℝ) (h : ∀ x ∈ a, x = 0) : dotl a b = 0 := by
  induction a generalizing b with
  | nil => simp [dotl]
  | cons x xs ih =>
    cases b with
    | nil => exact dotl_nil_right _
    | cons y ys =>
      rw [dotl_cons, h x (by simp), ih ys (fun z hz => h z (by simp [hz]))]
      ring

/-- Cauchy–Schwarz for the list dot product. -/
theorem dotl_sq_le (a b : List ℝ) : (dotl a b) ^ 2 ≤ dotl a a * dotl b b := by
  induction a generalizing b with
  | nil => simp [dotl]
  | cons x xs ih =>
    cases b with
    | nil => simp [dotl_nil_right]
    | cons y ys =>
      rw [dotl_cons, dotl_cons, dotl_cons]
      have ihb := ih ys
      have hA := dotl_self_nonneg xs
      have hB := dotl_self_nonneg ys
      rcases eq_or_lt_of_le hB with hB0 | hBpos
      · have hd : dotl xs ys = 0 := by
          have h2 : (dotl xs ys) ^ 2 ≤ 0 := by nlinarith
          nlinarith [sq_nonneg (dotl xs ys)]
        rw [hd, ← hB0]
        nlinarith [sq_nonneg y, sq_nonneg x, mul_nonneg hA (sq_nonneg y)]
      · nlinarith [sq_nonneg (x * dotl ys ys - y * dotl xs ys),
          mul_nonneg (sq_nonneg y) (sub_nonneg.mpr ihb),
          mul_nonneg (le_of_lt hBpos) (sub_nonneg.mpr ihb)]

/-- The feature-vector loop of `calculate_ml_score` is lookup-with-default
in feature order. -/
theorem buildFeatureValues_eq_map (order : List String) (features : List (String × ℝ)) :
    buildFeatureValues order features = order.map (fun n => (features.lookup n).getD 0) := by
  induction order with
  | nil => rfl
  | cons n rest ih =>
    cases h : features.lookup n <;> simp [buildFeatureValues, h, ih]

/-- The taxonomy loop returns the label of the first entry whose keyword
set hits the text. -/
theorem firstMatchLabel_eq_find (taxonomy : List (String × List String)) (textLower : String) :
    firstMatchLabel taxonomy textLower =
      ((taxonomy.find? (fun e => e.2.any (fun k => strContains textLower k))).map Prod.fst).getD "" := by
  induction taxonomy with
  | nil => rfl
  | cons e rest ih =>
    obtain ⟨label, kws⟩ := e
    by_cases h : kws.any (fun k => strContains textLower k) = true
    · simp [firstMatchLabel, h, List.find?_cons_of_pos]
    · rw [List.find?_cons_of_neg _ (by simpa using h)]
      simpa [firstMatchLabel, h] using ih

/-- Every row of the feature matrix has exactly one entry per feature
name. -/
theorem prepareFeatures_row_length (df : List TrainingRow) :
    ∀ r ∈ (prepareFeatures df).1, r.length = (prepareFeatures df).2.2.length := by
  intro r hr
  simp only [prepareFeatures, List.mem_map] at hr
  obtain ⟨row, _, rfl⟩ := hr
  simp [prepareFeatures, fixedFeatureVector, fixedFeatureNames]

/-- The concrete fit `fitHead` returns one coefficient per column of a
nonempty train matrix. -/
theorem fitHead_coef_length (auc accuracy prAuc : ℚ) (Xtr : List (List ℚ)) (ytr : List ℚ)
    (Xte : List (List ℚ)) (yte : List ℚ) (k : ℕ) (hne : Xtr ≠ [])
    (hall : ∀ r ∈ Xtr, r.length = k) :
    (fitHead auc accuracy prAuc Xtr ytr Xte yte).coef.length = k := by
  obtain ⟨a, t, rfl⟩ := List.exists_cons_of_ne_nil hne
  simp only [fitHead, List.headD, List.length_replicate]
  exact hall a (by simp)

/-! ## Claim theorems -/

/-- C2: `calculate_ml_score` builds the feature vector strictly in
`model.feature_order`, substituting 0.0 for absent names, and returns
`sigmoid(dot(coefficients, vector) + intercept)`; on the spec's fixed
example model and features the result equals
`sigmoid(1.0*0.8 + (-0.5)*1.0 + 0.1)` within 1e-9. -/
theorem C2_ml_score_formula :
    (∀ (model : MatcherModel) (features : List (String × ℝ)),
      calculateMlScore model features =
        sigmoid ((List.zipWith (fun c v => c * v) model.coefficients
          (model.feature_order.map (fun n => (features.lookup n).getD 0))).sum
            + model.intercept)) ∧
    |calculateMlScore exampleModel exampleFeatures
        - sigmoid ((1.0 : ℝ) * 0.8 + (-0.5) * 1.0 + 0.1)| ≤ 1e-9 := by
  constructor
  · intro model features
    unfold calculateMlScore
    rw [buildFeatureValues_eq_map]
  · have h : calculateMlScore exampleModel exampleFeatures
        = sigmoid ((1.0 : ℝ) * 0.8 + (-0.5) * 1.0 + 0.1) := by
      unfold calculateMlScore
      rw [buildFeatureValues_eq_map]
      simp [exampleModel, exampleFeatures, List.lookup]
    rw [h, sub_self, abs_zero]
    norm_num

/-- C4: with both metrics present on the new model, the deployed artifact
is overwritten iff AUC improves by more than 0.01 or accuracy improves by
more than 0.01 over the deployed model, and always with no previous
model; concretely, +0.02 AUC promotes and −0.01 AUC at unchanged accuracy
leaves the deployed artifact unchanged. -/
theorem C4_promotion_policy :
    (∀ (newModel old : ModelData) (newAuc newAccuracy : ℚ),
      newModel.auc_score = some newAuc → newModel.accuracy = some newAccuracy →
      (promotionDecision newModel (some old) = true ↔
        1 / 100 < newAuc - old.auc_score.getD 0 ∨
        1 / 100 < newAccuracy - old.accuracy.getD 0)) ∧
    (∀ newModel : ModelData, promotionDecision newModel none = true) ∧
    promotionDecision newPlus2 (some oldModelBase) = true ∧
    promotionDecision newMinus1 (some oldModelBase) = false ∧
    (mlTrainingHandler splitAll (fitHead (82 / 100) (70 / 100) 0) df100 (some oldModelBase)).2
      = some (trainModel splitAll (fitHead (82 / 100) (70 / 100) 0)
          (prepareFeatures df100).1 (prepareFeatures df100).2.1 (prepareFeatures df100).2.2) ∧
    trainModel splitAll (fitHead (82 / 100) (70 / 100) 0)
        (prepareFeatures df100).1 (prepareFeatures df100).2.1 (prepareFeatures df100).2.2
      ≠ oldModelBase ∧
    (mlTrainingHandler splitAll (fitHead (79 / 100) (70 / 100) 0) df100 (some oldModelBase)).2
      = some oldModelBase := by
  refine ⟨?_, ?_, ?_, ?_, ?_, ?_, ?_⟩
  · intro newModel old newAuc newAccuracy hna hnacc
    obtain ⟨mt, cs, ic, fo, ts, tes, auc, acc, pr⟩ := newModel
    simp only at hna hnacc
    subst hna
    subst hnacc
    simp only [promotionDecision, compareModels, Option.isNone_some, Bool.or_false]
    split_ifs with h <;> simpa using h
  · intro newModel
    simp [promotionDecision, compareModels]
  · norm_num [promotionDecision, compareModels, newPlus2, oldModelBase]
  · norm_num [promotionDecision, compareModels, newMinus1, oldModelBase]
  · have h100 : ¬ (df100.length < 100) := by simp [df100]
    have himp : (compareModels (trainModel splitAll (fitHead (82 / 100) (70 / 100) 0)
        (prepareFeatures df100).1 (prepareFeatures df100).2.1 (prepareFeatures df100).2.2)
        (some oldModelBase)).improvement = true := by
      norm_num [compareModels, trainModel, fitHead, oldModelBase]
    simp [mlTrainingHandler, h100, himp]
  · intro heq
    have hts := congrArg ModelData.training_samples heq
    simp [trainModel, splitAll, oldModelBase, prepareFeatures, df100] at hts
  · have h100 : ¬ (df100.length < 100) := by simp [df100]
    have himp : (compareModels (trainModel splitAll (fitHead (79 / 100) (70 / 100) 0)
        (prepareFeatures df100).1 (prepareFeatures df100).2.1 (prepareFeatures df100).2.2)
        (some oldModelBase)).improvement = false := by
      norm_num [compareModels, trainModel, fitHead, oldModelBase]
    simp [mlTrainingHandler, h100, himp]

/-- Witness for C4 at the concrete +0.02 model. -/
theorem C4_promotion_policy_witness :
    newPlus2.auc_score = some (82 / 100) ∧ newPlus2.accuracy = some (70 / 100) ∧
    (promotionDecision newPlus2 (some oldModelBase) = true ↔
      1 / 100 < (82 / 100 : ℚ) - oldModelBase.auc_score.getD 0 ∨
      1 / 100 < (70 / 100 : ℚ) - oldModelBase.accuracy.getD 0) :=
  ⟨rfl, rfl, C4_promotion_policy.1 newPlus2 oldModelBase (82 / 100) (70 / 100) rfl rfl⟩

/-- C5: a training run with fewer than 100 mined rows is a 200 success
with `model_saved=false`, fits no model (the result does not depend on
the fitter), and leaves the deployed artifact untouched — in both the
ml-training and the weekly handler. -/
theorem C5_insufficient_training_data (split : SplitFn) (f g : FitFn)
    (df : List TrainingRow) (deployed : Option ModelData) (h : df.length < 100) :
    (mlTrainingHandler split f df deployed).1.statusCode = 200 ∧
    (mlTrainingHandler split f df deployed).1.model_saved = false ∧
    (mlTrainingHandler split f df deployed).2 = deployed ∧
    mlTrainingHandler split f df deployed = mlTrainingHandler split g df deployed ∧
    (weeklyHandler split f df deployed).1.statusCode = 200 ∧
    (weeklyHandler split f df deployed).1.model_saved = false ∧
    (weeklyHandler split f df deployed).2 = deployed := by
  simp [mlTrainingHandler, weeklyHandler, h]

/-- Witness for C5 at a 50-row dataset. -/
theorem C5_insufficient_training_data_witness :
    df50.length < 100 ∧
    (mlTrainingHandler splitAll (fitHead 0 0 0) df50 (some oldModelBase)).1.model_saved = false ∧
    (mlTrainingHandler splitAll (fitHead 0 0 0) df50 (some oldModelBase)).2 = some oldModelBase := by
  refine ⟨by decide, ?_, ?_⟩
  · exact (C5_insufficient_training_data splitAll (fitHead 0 0 0) (fitHead 0 0 0) df50
      (some oldModelBase) (by decide)).2.1
  · exact (C5_insufficient_training_data splitAll (fitHead 0 0 0) (fitHead 0 0 0) df50
      (some oldModelBase) (by decide)).2.2.1

/-- C10: if the new model's metrics dict lacks `auc_score` or `accuracy`,
`compare_models` raises inside its `try` and the `except` branch reports
`improvement=True`, so the handler overwrites the deployed model; a
comparison failure can never retain the old model. -/
theorem C10_compare_failure_promotes (newModel old : ModelData)
    (h : newModel.auc_score = none ∨ newModel.accuracy = none) :
    (compareModels newModel (some old)).improvement = true ∧
    promotionDecision newModel (some old) = true := by
  obtain ⟨mt, cs, ic, fo, ts, tes, auc, acc, pr⟩ := newModel
  have himp : (compareModels ⟨mt, cs, ic, fo, ts, tes, auc, acc, pr⟩ (some old)).improvement
      = true := by
    rcases h with h | h <;> simp only at h <;> subst h
    · cases acc <;> rfl
    · cases auc <;> rfl
  exact ⟨himp, by simp [promotionDecision, himp]⟩

/-- Witness for C10 at a model missing its `auc_score`. -/
theorem C10_compare_failure_promotes_witness :
    (newNoAuc.auc_score = none ∨ newNoAuc.accuracy = none) ∧
    (compareModels newNoAuc (some oldModelBase)).improvement = true ∧
    promotionDecision newNoAuc (some oldModelBase) = true :=
  ⟨Or.inl rfl, C10_compare_failure_promotes newNoAuc oldModelBase (Or.inl rfl)⟩

/-- C8 counterexample: on the spec's own example the resolved label is
`technology` (the keyword `ai` occurs in "AI startup for hospitals"), so
`industry_match` against a `Healthcare` candidate is 0.0, not 1.0. -/
theorem C8_industry_match_counterexample :
    industryMatch "AI startup for hospitals" "Healthcare" = 0 ∧
    industryMatch "AI startup for hospitals" "Healthcare" ≠ 1 := by
  constructor <;> decide

/-- C8 amended: `industry_match` resolves the challenge text to the first
taxonomy entry with a keyword occurring in the lower-cased text and
returns 1.0 exactly when that nonempty label is a substring of the
lower-cased candidate industry; the example text resolves to
`technology` (via the keyword `ai`), so it scores 0.0 against both
`Healthcare` and `Retail`. -/
theorem C8_industry_match_taxonomy :
    (∀ text candidateIndustry : String,
      industryMatch text candidateIndustry =
        if extractIndustryFromText text ≠ "" ∧
            strContains (lowerStr candidateIndustry) (extractIndustryFromText text) = true
          then 1 else 0) ∧
    (∀ text : String, extractIndustryFromText text =
      ((industryKeywords.find? (fun e =>
          e.2.any (fun k => strContains (lowerStr text) k))).map Prod.fst).getD "") ∧
    extractIndustryFromText "AI startup for hospitals" = "technology" ∧
    industryMatch "AI startup for hospitals" "Retail" = 0 := by
  refine ⟨fun text ci => rfl, fun text => firstMatchLabel_eq_find _ _, by decide, by decide⟩

/-- C9: on equal-length vectors the embedding similarity lies in [-1,1];
a vector with a nonzero entry has similarity 1 with itself; empty and
all-zero vectors yield 0.0 rather than NaN or an error. -/
theorem C9_cosine_similarity_bounds :
    (∀ a b : List ℝ, a.length = b.length → -1 ≤ cosineSim a b ∧ cosineSim a b ≤ 1) ∧
    (∀ a : List ℝ, (∃ x ∈ a, x ≠ 0) → cosineSim a a = 1) ∧
    (∀ b : List ℝ, cosineSim [] b = 0 ∧ cosineSim b [] = 0) ∧
    (∀ a b : List ℝ, (∀ x ∈ a, x = 0) → cosineSim a b = 0) := by
  refine ⟨?_, ?_, ?_, ?_⟩
  · intro a b hlen
    unfold cosineSim
    split_ifs with h1
    · norm_num
    · have hA := dotl_self_nonneg a
      have hB := dotl_self_nonneg b
      have hcs := dotl_sq_le a b
      have hD : 0 ≤ Real.sqrt (dotl a a) * Real.sqrt (dotl b b) :=
        mul_nonneg (Real.sqrt_nonneg _) (Real.sqrt_nonneg _)
      rcases eq_or_lt_of_le hD with hD0 | hDpos
      · rw [← hD0, div_zero]
        norm_num
      · have habs : |dotl a b| ≤ Real.sqrt (dotl a a) * Real.sqrt (dotl b b) := by
          rw [← Real.sqrt_sq_eq_abs, ← Real.sqrt_mul hA]
          exact Real.sqrt_le_sqrt hcs
        have hq : |dotl a b / (Real.sqrt (dotl a a) * Real.sqrt (dotl b b))| ≤ 1 := by
          rw [abs_div, abs_of_pos hDpos]
          exact (div_le_one hDpos).mpr habs
        exact abs_le.mp hq
  · intro a ha
    have hpos := dotl_self_pos a ha
    have hne : a ≠ [] := by
      rintro rfl
      obtain ⟨x, hx, _⟩ := ha
      simp at hx
    have hae : a.isEmpty = false := by
      simpa [List.isEmpty_iff] using hne
    unfold cosineSim
    rw [hae]
    simp only [Bool.or_self, Bool.false_eq_true, if_false, if_pos rfl]
    rw [Real.mul_self_sqrt (le_of_lt hpos)]
    exact div_self (ne_of_gt hpos)
  · intro b
    constructor <;> simp [cosineSim]
  · intro a b h
    unfold cosineSim
    have hz : dotl a b = 0 := dotl_zero_left a b h
    split_ifs <;> simp [hz]

/-- Witness for C9 at the one-entry vector `[1]`. -/
theorem C9_cosine_similarity_bounds_witness :
    ([(1 : ℝ)] : List ℝ).length = ([(1 : ℝ)] : List ℝ).length ∧
    (-1 ≤ cosineSim [(1 : ℝ)] [(1 : ℝ)] ∧ cosineSim [(1 : ℝ)] [(1 : ℝ)] ≤ 1) ∧
    (∃ x ∈ ([(1 : ℝ)] : List ℝ), x ≠ 0) ∧
    cosineSim [(1 : ℝ)] [(1 : ℝ)] = 1 :=
  ⟨rfl, C9_cosine_similarity_bounds.1 [(1 : ℝ)] [(1 : ℝ)] rfl,
    ⟨1, by simp, one_ne_zero⟩,
    C9_cosine_similarity_bounds.2.1 [(1 : ℝ)] ⟨1, by simp, one_ne_zero⟩⟩

/-- C7: `find_matches` returns at most `TOP_RESULTS` entries, sorted in
non-increasing order of `final_score`, and an empty candidate set yields
the empty list as a successful result. -/
theorem C7_find_matches_topk_sorted :
    (∀ (challengeText : String) (challengeEmbedding : List ℝ)
        (candidates : List Candidate) (model : MatcherModel),
      (findMatches challengeText challengeEmbedding candidates model).length ≤ TOP_RESULTS ∧
      List.Sorted (fun a b => b.final_score ≤ a.final_score)
        (findMatches challengeText challengeEmbedding candidates model)) ∧
    (∀ (challengeText : String) (challengeEmbedding : List ℝ) (model : MatcherModel),
      findMatches challengeText challengeEmbedding [] model = []) := by
  constructor
  · intro text emb cands model
    constructor
    · unfold findMatches
      split_ifs with h
      · simp [TOP_RESULTS]
      · exact List.length_take_le _ _
    · unfold findMatches
      split_ifs with h
      · simp
      · have hs := @List.sorted_mergeSort MatchResult
          (fun a b : MatchResult => decide (b.final_score ≤ a.final_score))
          (fun a b c hab hbc => by
            simp only [decide_eq_true_eq] at *
            exact le_trans hbc hab)
          (fun a b => by
            simp only [Bool.or_eq_true, decide_eq_true_eq]
            exact le_total b.final_score a.final_score)
          (cands.map (scoreCandidate text emb model))
        have hp : List.Pairwise (fun a b : MatchResult => b.final_score ≤ a.final_score)
            ((cands.map (scoreCandidate text emb model)).mergeSort
              (fun a b => decide (b.final_score ≤ a.final_score))) :=
          hs.imp (fun hab => by simpa using hab)
        exact List.Pairwise.sublist (List.take_sublist _ _) hp
  · intro text emb model
    rfl

/-- The per-candidate final score is negative whenever the cosine
similarity is -1 (the ML score is always below 1). -/
theorem scoreCandidate_neg_of_opposite (text : String) (emb : List ℝ)
    (model : MatcherModel) (c : Candidate)
    (h : cosineSim emb c.embedding_vector = -1) :
    (scoreCandidate text emb model c).final_score < 0 := by
  unfold scoreCandidate matcherFinalScore
  simp only [h]
  have hml := calculateMlScore_lt_one model
    [("embedding_similarity", (-1 : ℝ)),
     ("industry_match", ((calculateRuleFeatures text c).industry_match : ℝ)),
     ("geo_match", ((calculateRuleFeatures text c).geo_match : ℝ))]
  linarith

/-- C3 counterexample: `find_matches` applies no clamp, so a candidate
whose embedding points opposite to the challenge embedding is returned
with a negative `final_score` (outside [0,1]). -/
theorem C3_final_score_counterexample :
    ((findMatches "x" [(1 : ℝ)] [oppositeCandidate] defaultModel).headD
      emptyMatchResult).final_score < 0 := by
  have hsim : cosineSim [(1 : ℝ)] oppositeCandidate.embedding_vector = -1 := by
    norm_num [cosineSim, oppositeCandidate, dotl, Real.sqrt_one]
  have hfm : findMatches "x" [(1 : ℝ)] [oppositeCandidate] defaultModel
      = [scoreCandidate "x" [(1 : ℝ)] defaultModel oppositeCandidate] := by
    unfold findMatches
    rw [if_neg (by simp)]
    simp [List.mergeSort_singleton, TOP_RESULTS]
  rw [hfm]
  exact scoreCandidate_neg_of_opposite "x" [(1 : ℝ)] defaultModel oppositeCandidate hsim

/-- C3 amended: `compute_final_score` of the scoring snippet clamps its
0.6/0.2/0.1/0.1 combination to [0,1] for all inputs; `find_matches` of
the matcher computes the unclamped `0.7*sim + 0.3*ml`, which lies in
[0,1] whenever the embedding similarity does but is negative for
negative cosine similarity. -/
theorem C3_final_score_range :
    (∀ e i a m : ℝ, 0 ≤ computeFinalScore e i a m ∧ computeFinalScore e i a m ≤ 1) ∧
    (∀ sim ml : ℝ, 0 ≤ sim → sim ≤ 1 → 0 ≤ ml → ml ≤ 1 →
      0 ≤ matcherFinalScore sim ml ∧ matcherFinalScore sim ml ≤ 1) := by
  constructor
  · intro e i a m
    unfold computeFinalScore
    refine ⟨le_max_of_le_left (by norm_num),
      max_le (by norm_num) (le_trans (min_le_left _ _) (by norm_num))⟩
  · intro sim ml h1 h2 h3 h4
    unfold matcherFinalScore
    constructor <;> nlinarith

/-- Witness for C3's amended range statement at sim = ml = 1/2. -/
theorem C3_final_score_range_witness :
    (0 : ℝ) ≤ 1 / 2 ∧ (1 / 2 : ℝ) ≤ 1 ∧
    (0 ≤ matcherFinalScore (1 / 2) (1 / 2) ∧ matcherFinalScore (1 / 2) (1 / 2) ≤ 1) :=
  ⟨by norm_num, by norm_num,
    C3_final_score_range.2 (1 / 2) (1 / 2) (by norm_num) (by norm_num) (by norm_num) (by norm_num)⟩

/-- C1: given that the external fit returns one coefficient per column of
its (nonempty) train matrix and the external split returns samples of its
input, every trained artifact satisfies
`len(coefficients) == len(feature_order)`, and `feature_order` is the ten
fixed numeric names followed by exactly the one-hot names for the
industry and country values observed in the run, in the order
`prepare_features` emits them. -/
theorem C1_model_artifact_schema (df : List TrainingRow) (split : SplitFn) (fitEval : FitFn)
    (hsplit : ∀ l, ∀ p ∈ (split l).1, p ∈ l)
    (hsplitne : ∀ l, l ≠ [] → (split l).1 ≠ [])
    (hfit : ∀ Xtr ytr Xte yte (k : ℕ), Xtr ≠ [] → (∀ r ∈ Xtr, r.length = k) →
      (fitEval Xtr ytr Xte yte).coef.length = k)
    (hne : df ≠ []) :
    (trainModel split fitEval (prepareFeatures df).1 (prepareFeatures df).2.1
        (prepareFeatures df).2.2).coefficients.length =
      (trainModel split fitEval (prepareFeatures df).1 (prepareFeatures df).2.1
        (prepareFeatures df).2.2).feature_order.length ∧
    (trainModel split fitEval (prepareFeatures df).1 (prepareFeatures df).2.1
        (prepareFeatures df).2.2).feature_order =
      fixedFeatureNames
        ++ (uniqueInOrder (df.map rowIndustry)).map (fun v => "industry_" ++ v)
        ++ (uniqueInOrder (df.map rowCountry)).map (fun v => "country_" ++ v) := by
  constructor
  · have hXlen : (prepareFeatures df).1.length = df.length := by
      simp [prepareFeatures]
    have hylen : (prepareFeatures df).2.1.length = df.length := by
      simp [prepareFeatures]
    have hzipne : (prepareFeatures df).1.zip (prepareFeatures df).2.1 ≠ [] := by
      rw [← List.length_pos_iff_ne_nil, List.length_zip, hXlen, hylen, Nat.min_self]
      exact List.length_pos_iff_ne_nil.mpr hne
    have htrne := hsplitne _ hzipne
    have hXtrne : ((split ((prepareFeatures df).1.zip (prepareFeatures df).2.1)).1.map
        Prod.fst) ≠ [] := by
      simpa [List.map_eq_nil_iff] using htrne
    have hall : ∀ r ∈ (split ((prepareFeatures df).1.zip (prepareFeatures df).2.1)).1.map
        Prod.fst, r.length = (prepareFeatures df).2.2.length := by
      intro r hr
      obtain ⟨p, hp, rfl⟩ := List.mem_map.mp hr
      obtain ⟨p1, p2⟩ := p
      have hpz := hsplit _ _ hp
      exact prepareFeatures_row_length df p1 (List.of_mem_zip hpz).1
    exact hfit _ _ _ _ _ hXtrne hall
  · rfl

/-- Witness for C1 at a one-row dataset with the concrete split and fit. -/
theorem C1_model_artifact_schema_witness :
    ([row0] : List TrainingRow) ≠ [] ∧
    (trainModel splitAll (fitHead 0 0 0) (prepareFeatures [row0]).1 (prepareFeatures [row0]).2.1
        (prepareFeatures [row0]).2.2).coefficients.length =
      (trainModel splitAll (fitHead 0 0 0) (prepareFeatures [row0]).1 (prepareFeatures [row0]).2.1
        (prepareFeatures [row0]).2.2).feature_order.length :=
  ⟨by simp,
    (C1_model_artifact_schema [row0] splitAll (fitHead 0 0 0)
      (fun _ _ hp => hp)
      (fun l hl => by simpa [splitAll] using hl)
      (fun Xtr ytr Xte yte k hne hall => fitHead_coef_length 0 0 0 Xtr ytr Xte yte k hne hall)
      (by simp)).1⟩

/-- C6 counterexample: on the same 100-row dataset and deployed model,
the comparison reports no improvement and the ml-training handler retains
the deployed artifact, yet the weekly trainer overwrites it — an
execution path that writes the deployed artifact with no promotion
decision. -/
theorem C6_deploy_counterexample :
    (mlTrainingHandler splitAll (fitHead 0 0 0) df100 (some oldModelBase)).2
      = some oldModelBase ∧
    (weeklyHandler splitAll (fitHead 0 0 0) df100 (some oldModelBase)).2
      ≠ some oldModelBase ∧
    (compareModels (trainModel splitAll (fitHead 0 0 0) (prepareFeatures df100).1
        (prepareFeatures df100).2.1 (prepareFeatures df100).2.2)
      (some oldModelBase)).improvement = false := by
  have h100 : ¬ (df100.length < 100) := by simp [df100]
  have himp : (compareModels (trainModel splitAll (fitHead 0 0 0) (prepareFeatures df100).1
      (prepareFeatures df100).2.1 (prepareFeatures df100).2.2)
      (some oldModelBase)).improvement = false := by
    norm_num [compareModels, trainModel, fitHead, oldModelBase]
  refine ⟨by simp [mlTrainingHandler, h100, himp], ?_, himp⟩
  have hw : (weeklyHandler splitAll (fitHead 0 0 0) df100 (some oldModelBase)).2
      = some (weeklyTrainModel splitAll (fitHead 0 0 0) (prepareFeatures df100).1
          (prepareFeatures df100).2.1 (prepareFeatures df100).2.2) := by
    simp [weeklyHandler, h100]
  rw [hw]
  intro hcontra
  have hts := congrArg ModelData.training_samples (Option.some.inj hcontra)
  simp [weeklyTrainModel, splitAll, oldModelBase, prepareFeatures, df100] at hts

/-- C6 amended: the ml-training handler changes the deployed artifact
only when the comparison reports improvement or no model was deployed;
the weekly handler, whenever it trains (at least 100 rows), overwrites
the deployed artifact unconditionally, with no comparison. -/
theorem C6_promotion_gate :
    (∀ (split : SplitFn) (fitEval : FitFn) (df : List TrainingRow)
        (deployed : Option ModelData),
      (mlTrainingHandler split fitEval df deployed).2 ≠ deployed →
      (compareModels (trainModel split fitEval (prepareFeatures df).1 (prepareFeatures df).2.1
          (prepareFeatures df).2.2) deployed).improvement = true ∨ deployed = none) ∧
    (∀ (split : SplitFn) (fitEval : FitFn) (df : List TrainingRow)
        (deployed : Option ModelData),
      100 ≤ df.length →
      (weeklyHandler split fitEval df deployed).2 =
        some (weeklyTrainModel split fitEval (prepareFeatures df).1 (prepareFeatures df).2.1
          (prepareFeatures df).2.2)) := by
  constructor
  · intro split fitEval df deployed hchg
    simp only [mlTrainingHandler] at hchg
    split_ifs at hchg with h1 h2
    · exact absurd rfl hchg
    · simp only [Bool.or_eq_true] at h2
      rcases h2 with h | h
      · exact Or.inl h
      · exact Or.inr (Option.isNone_iff_eq_none.mp h)
    · exact absurd rfl hchg
  · intro split fitEval df deployed h
    unfold weeklyHandler
    rw [if_neg (by omega)]

/-- Witness for C6 at the 100-row dataset: the ml-training handler
changes an empty deployment (the comparison reports improvement), and the
weekly handler saves its trained model. -/
theorem C6_promotion_gate_witness :
    (mlTrainingHandler splitAll (fitHead 0 0 0) df100 none).2 ≠ none ∧
    ((compareModels (trainModel splitAll (fitHead 0 0 0) (prepareFeatures df100).1
        (prepareFeatures df100).2.1 (prepareFeatures df100).2.2) none).improvement = true ∨
      (none : Option ModelData) = none) ∧
    100 ≤ df100.length ∧
    (weeklyHandler splitAll (fitHead 0 0 0) df100 none).2 =
      some (weeklyTrainModel splitAll (fitHead 0 0 0) (prepareFeatures df100).1
        (prepareFeatures df100).2.1 (prepareFeatures df100).2.2) := by
  have h100 : ¬ (df100.length < 100) := by simp [df100]
  have hchg : (mlTrainingHandler splitAll (fitHead 0 0 0) df100 none).2 ≠ none := by
    simp [mlTrainingHandler, h100, compareModels]
  exact ⟨hchg,
    C6_promotion_gate.1 splitAll (fitHead 0 0 0) df100 none hchg,
    by simp [df100],
    C6_promotion_gate.2 splitAll (fitHead 0 0 0) df100 none (by simp [df100])⟩
